import Mathlib

/-!
# Typed client for the Chart custom resource (package clientset)

A shallow embedding of `pkg/apis/helm.k0sproject.io/clientset/clientset.go`.

The Go file is a thin adapter over collaborators that live outside the
repository: the REST transport (`rest.Interface` and its fluent request
builder), the scheme registry, the configuration loader.  The embedding keeps
the adapter's own code as Lean functions and treats the collaborators as
follows.

* A request under construction is a descriptor (`Request`): every builder call
  the source makes records the argument it was given.
* What a collaborator answers is not decided here: it is read from an
  `Externals` value, a parameter of every function, whose answers may depend on
  everything that was asked before.
* Every call that leaves the adapter (loading a configuration, registering the
  scheme, constructing the transport, executing a request, opening a watch) is
  appended to the `World`, the only mutable state of the embedding.
* A Go pointer result is an `Option` (`none` is `nil`); a Go `error` is an
  `Option Error` (`none` is `nil`).
-/

namespace clientset

/-! ## Values of the collaborating packages -/

/-- An error value, as reported by a collaborator. -/
structure Error where
  msg : String
  deriving DecidableEq, Repr

/-- The call context `ctx` every operation takes and hands to the transport. -/
structure Context where
  id : Nat
  deriving DecidableEq, Repr

/-- The type `schema.GroupVersion`. -/
structure GroupVersion where
  Group : String
  Version : String
  deriving DecidableEq, Repr

/-- A value of the interface `runtime.NegotiatedSerializer`, known by identity only. -/
structure NegotiatedSerializer where
  id : Nat
  deriving DecidableEq, Repr

/-- The type `rest.Config`.  The source names four of its fields (`GroupVersion`,
`APIPath`, `NegotiatedSerializer`, `UserAgent`); the other fields listed stand
for the rest of the struct, which the source only copies. -/
structure Config where
  Host : String
  APIPath : String
  AcceptContentTypes : String
  ContentType : String
  GroupVersion : Option GroupVersion
  NegotiatedSerializer : Option NegotiatedSerializer
  Username : String
  Password : String
  BearerToken : String
  BearerTokenFile : String
  UserAgent : String
  Insecure : Bool
  ServerName : String
  CertFile : String
  KeyFile : String
  CAFile : String
  Burst : Int
  Timeout : Int
  deriving DecidableEq, Repr

/-- The type `metav1.ListOptions`; `Watch` is the only field the source names. -/
structure ListOptions where
  LabelSelector : String
  FieldSelector : String
  Watch : Bool
  AllowWatchBookmarks : Bool
  ResourceVersion : String
  ResourceVersionMatch : String
  TimeoutSeconds : Option Int
  Limit : Int
  Continue : String
  deriving DecidableEq, Repr

/-- The type `metav1.GetOptions`. -/
structure GetOptions where
  ResourceVersion : String
  deriving DecidableEq, Repr

/-- The type `metav1.DeleteOptions`. -/
structure DeleteOptions where
  GracePeriodSeconds : Option Int
  PreconditionUID : Option String
  PreconditionResourceVersion : Option String
  OrphanDependents : Option Bool
  PropagationPolicy : Option String
  DryRun : List String
  deriving DecidableEq, Repr

/-- The type `metav1.UpdateOptions`. -/
structure UpdateOptions where
  DryRun : List String
  FieldManager : String
  FieldValidation : String
  deriving DecidableEq, Repr

/-- Modelled from the spec: the type `v1beta1.Chart`, declared in package
`v1beta1`, outside the embedded file.  The spec says its attributes are opaque
to the adapter but that it carries a name and a namespace for addressing, and a
status; the adapter reads `Name` only. -/
structure Chart where
  Name : String
  Namespace : String
  Spec : String
  Status : String
  deriving DecidableEq, Repr

/-- Modelled from the spec: the type `v1beta1.ChartList`, declared in package
`v1beta1`, outside the embedded file: "an ordered collection of Chart". -/
structure ChartList where
  Items : List Chart
  deriving DecidableEq, Repr

/-- The zero value `v1beta1.Chart{}`. -/
def Chart.zero : Chart := { Name := "", Namespace := "", Spec := "", Status := "" }

/-- The zero value `v1beta1.ChartList{}`. -/
def ChartList.zero : ChartList := { Items := [] }

/-- A value of the interface `watch.Interface`: the event stream a watch opens. -/
structure WatchInterface where
  id : Nat
  deriving DecidableEq, Repr

/-! ## The request builder of the transport -/

/-- A value of `rest.Interface`: the handle of a constructed transport. -/
structure RestInterface where
  id : Nat
  deriving DecidableEq, Repr

/-- The HTTP verb a request starts from. -/
inductive Verb where
  | GET
  | POST
  | PUT
  | DELETE
  deriving DecidableEq, Repr

/-- The codecs a caller can pass to `VersionedParams`; the source passes
`scheme.ParameterCodec` everywhere. -/
inductive Codec where
  | ParameterCodec
  deriving DecidableEq, Repr

/-- The options object handed to `VersionedParams`. -/
inductive Params where
  | list (o : ListOptions)
  | get (o : GetOptions)
  | delete (o : DeleteOptions)
  | update (o : UpdateOptions)
  deriving DecidableEq, Repr

/-- The object handed to `Body`. -/
inductive Body where
  | chart (c : Chart)
  | deleteOptions (o : DeleteOptions)
  deriving DecidableEq, Repr

/-- A request under construction: the transport it is bound to, its verb, and
what each builder call of the source was given (`none`: the call was not made). -/
structure Request where
  client : RestInterface
  verb : Verb
  nspace : Option String
  resource : Option String
  resourceName : Option String
  subresource : Option String
  params : Option (Params × Codec)
  body : Option Body
  deriving DecidableEq, Repr

/-- A fresh request of the given verb, nothing set. -/
def Request.new (c : RestInterface) (v : Verb) : Request :=
  { client := c, verb := v, nspace := none, resource := none, resourceName := none,
    subresource := none, params := none, body := none }

/-- The call `restClient.Get()`. -/
def RestInterface.Get (c : RestInterface) : Request := Request.new c Verb.GET

/-- The call `restClient.Post()`. -/
def RestInterface.Post (c : RestInterface) : Request := Request.new c Verb.POST

/-- The call `restClient.Put()`. -/
def RestInterface.Put (c : RestInterface) : Request := Request.new c Verb.PUT

/-- The call `restClient.Delete()`. -/
def RestInterface.Delete (c : RestInterface) : Request := Request.new c Verb.DELETE

/-- The builder call `.Namespace(ns)`. -/
def Request.Namespace (r : Request) (ns : String) : Request := { r with nspace := some ns }

/-- The builder call `.Resource(resource)`. -/
def Request.Resource (r : Request) (resource : String) : Request :=
  { r with resource := some resource }

/-- The builder call `.Name(name)`. -/
def Request.Name (r : Request) (name : String) : Request := { r with resourceName := some name }

/-- The builder call `.SubResource(sub)`. -/
def Request.SubResource (r : Request) (sub : String) : Request :=
  { r with subresource := some sub }

/-- The builder call `.VersionedParams(&obj, codec)`. -/
def Request.VersionedParams (r : Request) (obj : Params) (codec : Codec) : Request :=
  { r with params := some (obj, codec) }

/-- The builder call `.Body(obj)`. -/
def Request.Body (r : Request) (obj : Body) : Request := { r with body := some obj }

/-- Modelled from the spec: the path the transport addresses, after the
`/apis/<group>/<version>` part, is `namespaces/<ns>/charts[/<name>[/status]]`;
the transport that renders it is outside the repository.  Each segment is
present when the matching builder call was made. -/
def Request.pathSegments (r : Request) : List String :=
  (match r.nspace with
    | some ns => ["namespaces", ns]
    | none => []) ++ r.resource.toList ++ r.resourceName.toList ++ r.subresource.toList

/-! ## The world and the collaborators -/

/-- One call that leaves the adapter. -/
inductive Event where
  | buildConfigFromFlags (masterUrl : String) (kubeconfigPath : String)
  | addToScheme
  | restClientFor (config : Config)
  | execute (ctx : Context) (r : Request)
  | watch (ctx : Context) (r : Request)
  deriving DecidableEq, Repr

/-- The mutable state: every call made to a collaborator so far, oldest first. -/
structure World where
  calls : List Event
  deriving DecidableEq, Repr

/-- Append one call to the world. -/
def World.record (w : World) (e : Event) : World := { calls := w.calls ++ [e] }

/-- The request an event hands to the transport, if it is one. -/
def Event.request : Event → Option Request
  | Event.execute _ r => some r
  | Event.watch _ r => some r
  | _ => none

/-- The requests handed to the transport so far, oldest first. -/
def World.requests (w : World) : List Request := w.calls.filterMap Event.request

/-- The value `rest.Result` that `Do(ctx)` returns: `Error` is what
`Result.Error()` reports; `IntoChart target` and `IntoChartList target` are what
`Result.Into(&target)` leaves in the target and what it reports. -/
structure Result where
  Error : Option Error
  IntoChart : Chart → Chart × Option clientset.Error
  IntoChartList : ChartList → ChartList × Option clientset.Error

/-- The collaborators.  Each answer may depend on the calls made so far.
`GroupVersion` is the variable `v1beta1.GroupVersion`, `CodecsWithoutConversion`
the value of `scheme.Codecs.WithoutConversion()`, `DefaultKubernetesUserAgent`
the value of `rest.DefaultKubernetesUserAgent()`. -/
structure Externals where
  GroupVersion : GroupVersion
  CodecsWithoutConversion : NegotiatedSerializer
  DefaultKubernetesUserAgent : String
  BuildConfigFromFlags : List Event → String → String → Except Error Config
  AddToScheme : List Event → Option Error
  RESTClientFor : List Event → Config → Except Error RestInterface
  Do : List Event → Context → Request → Result
  Watch : List Event → Context → Request → Option WatchInterface × Option Error

/-- The terminal call `.Do(ctx)`: the request goes to the transport. -/
def Request.Do (E : Externals) (r : Request) (ctx : Context) (w : World) : Result × World :=
  (E.Do w.calls ctx r, w.record (Event.execute ctx r))

/-- The terminal call `.Watch(ctx)`: the request goes to the transport. -/
def Request.Watch (E : Externals) (r : Request) (ctx : Context) (w : World) :
    (Option WatchInterface × Option Error) × World :=
  (E.Watch w.calls ctx r, w.record (Event.watch ctx r))

/-! ## The adapter -/

/-- The constant `resourceName`. -/
def resourceName : String := "charts"

/-- The struct `ChartV1Beta1Client`. -/
structure ChartV1Beta1Client where
  restClient : RestInterface
  deriving DecidableEq, Repr

/-- The struct `chartClient`. -/
structure chartClient where
  restClient : RestInterface
  ns : String
  deriving DecidableEq, Repr

/-- What a method of `chartClient` leaves behind: the values it returns, its
receiver `c` as it stands at the return, and the world. -/
structure Returned (α : Type) where
  ret : α
  c : chartClient
  world : World

/-- The method `ChartV1Beta1Client.Charts`. -/
def ChartV1Beta1Client.Charts (c : ChartV1Beta1Client) (ns : String) : chartClient :=
  { ns := ns, restClient := c.restClient }

/-- The method `chartClient.Delete`. -/
def chartClient.Delete (E : Externals) (c : chartClient) (ctx : Context) (name : String)
    (opts : DeleteOptions) (w : World) : Returned (Option Error) :=
  let out := ((((c.restClient.Delete.Namespace c.ns).Resource resourceName).Name name).Body
    (Body.deleteOptions opts)).Do E ctx w
  { ret := out.1.Error, c := c, world := out.2 }

/-- The method `chartClient.Watch`. -/
def chartClient.Watch (E : Externals) (c : chartClient) (ctx : Context) (opts : ListOptions)
    (w : World) : Returned (Option WatchInterface × Option Error) :=
  let opts := { opts with Watch := true }
  let out := (((c.restClient.Get.Namespace c.ns).Resource resourceName).VersionedParams
    (Params.list opts) Codec.ParameterCodec).Watch E ctx w
  { ret := out.1, c := c, world := out.2 }

/-- The method `chartClient.List`. -/
def chartClient.List (E : Externals) (c : chartClient) (ctx : Context) (w : World) :
    Returned (Option ChartList × Option Error) :=
  let result := ChartList.zero
  let out := ((c.restClient.Get.Namespace c.ns).Resource resourceName).Do E ctx w
  let into := out.1.IntoChartList result
  { ret := (some into.1, into.2), c := c, world := out.2 }

/-- The method `chartClient.Get`. -/
def chartClient.Get (E : Externals) (c : chartClient) (ctx : Context) (name : String)
    (opts : GetOptions) (w : World) : Returned (Option Chart × Option Error) :=
  let result := Chart.zero
  let out := ((((c.restClient.Get.Namespace c.ns).Resource resourceName).Name name).VersionedParams
    (Params.get opts) Codec.ParameterCodec).Do E ctx w
  let into := out.1.IntoChart result
  { ret := (some into.1, into.2), c := c, world := out.2 }

/-- The method `chartClient.UpdateStatus`; `chart` is the object the pointer
argument refers to. -/
def chartClient.UpdateStatus (E : Externals) (c : chartClient) (ctx : Context) (chart : Chart)
    (opts : UpdateOptions) (w : World) : Returned (Option Chart × Option Error) :=
  let result := Chart.zero
  let out := ((((((c.restClient.Put.Namespace c.ns).Resource resourceName).Name
    chart.Name).SubResource "status").VersionedParams (Params.update opts)
    Codec.ParameterCodec).Body (Body.chart chart)).Do E ctx w
  let into := out.1.IntoChart result
  { ret := (some into.1, into.2), c := c, world := out.2 }

/-- The method `chartClient.Create`; `chart` is the object the pointer argument
refers to. -/
def chartClient.Create (E : Externals) (c : chartClient) (ctx : Context) (chart : Chart)
    (w : World) : Returned (Option Chart × Option Error) :=
  let resBody := Chart.zero
  let out := (((c.restClient.Post.Namespace c.ns).Resource resourceName).Body
    (Body.chart chart)).Do E ctx w
  let into := out.1.IntoChart resBody
  { ret := (some into.1, into.2), c := c, world := out.2 }

/-- What `New` leaves behind: the client and error it returns, the
configuration its argument points to as it stands at the return, and the world. -/
structure NewReturned where
  client : Option ChartV1Beta1Client
  err : Option Error
  config : Config
  world : World

/-- The function `New`; `config` is the configuration the pointer argument
refers to. -/
def New (E : Externals) (config : Config) (w : World) : NewReturned :=
  match E.AddToScheme w.calls with
  | some err =>
    { client := none, err := some err, config := config, world := w.record Event.addToScheme }
  | none =>
    let w1 := w.record Event.addToScheme
    let crdConfig := config
    let crdConfig := { crdConfig with GroupVersion := some E.GroupVersion }
    let crdConfig := { crdConfig with APIPath := "/apis" }
    let crdConfig := { crdConfig with NegotiatedSerializer := some E.CodecsWithoutConversion }
    let crdConfig := { crdConfig with UserAgent := E.DefaultKubernetesUserAgent }
    match E.RESTClientFor w1.calls crdConfig with
    | Except.error err =>
      { client := none, err := some err, config := config,
        world := w1.record (Event.restClientFor crdConfig) }
    | Except.ok restClient =>
      { client := some { restClient := restClient }, err := none, config := config,
        world := w1.record (Event.restClientFor crdConfig) }

/-- What `NewForConfig` leaves behind: the client and error it returns, and the world. -/
structure Built where
  client : Option ChartV1Beta1Client
  err : Option Error
  world : World

/-- The function `NewForConfig`. -/
def NewForConfig (E : Externals) (cfgPath : String) (w : World) : Built :=
  match E.BuildConfigFromFlags w.calls "" cfgPath with
  | Except.error err =>
    { client := none, err := some err, world := w.record (Event.buildConfigFromFlags "" cfgPath) }
  | Except.ok config =>
    let r := New E config (w.record (Event.buildConfigFromFlags "" cfgPath))
    { client := r.client, err := r.err, world := r.world }

/-- The value of the local variable `crdConfig` of `New` after its four
assignments: a copy of `config` with `GroupVersion`, `APIPath`,
`NegotiatedSerializer` and `UserAgent` overwritten. -/
def crdConfig (E : Externals) (config : Config) : Config :=
  { config with
    GroupVersion := some E.GroupVersion
    APIPath := "/apis"
    NegotiatedSerializer := some E.CodecsWithoutConversion
    UserAgent := E.DefaultKubernetesUserAgent }

/-! ## Sample collaborators

A small concrete transport, used to evaluate the adapter on explicit inputs. -/

/-- A configuration whose four derived fields hold values of the caller. -/
def sampleConfig : Config :=
  { Host := "https://10.0.0.1:6443", APIPath := "/api", AcceptContentTypes := "",
    ContentType := "application/json", GroupVersion := some { Group := "", Version := "v1" },
    NegotiatedSerializer := some { id := 7 }, Username := "admin", Password := "",
    BearerToken := "token", BearerTokenFile := "", UserAgent := "caller-agent",
    Insecure := false, ServerName := "", CertFile := "", KeyFile := "", CAFile := "/ca.crt",
    Burst := 10, Timeout := 30 }

/-- The result of a request that failed before anything was decoded: every
accessor of the result reports the error and `Into` leaves its target alone. -/
def failedResult (e : Error) : Result :=
  { Error := some e, IntoChart := fun t => (t, some e), IntoChartList := fun t => (t, some e) }

/-- The result of a request the server answered with the given chart. -/
def chartResult (ch : Chart) : Result :=
  { Error := none, IntoChart := fun _ => (ch, none),
    IntoChartList := fun _ => ({ Items := [ch] }, none) }

/-- A transport that knows no chart named "missing", answers every other
request with a chart of the requested name in the requested namespace, cannot
be built for an empty host, and finds no configuration at the path "/nowhere". -/
def sampleExternals : Externals :=
  { GroupVersion := { Group := "helm.k0sproject.io", Version := "v1beta1" }
    CodecsWithoutConversion := { id := 1 }
    DefaultKubernetesUserAgent := "k0s/v1.0 (linux/amd64) kubernetes/abcdef"
    BuildConfigFromFlags := fun _ _ path =>
      if path = "/nowhere" then Except.error { msg := "no such file" } else Except.ok sampleConfig
    AddToScheme := fun _ => none
    RESTClientFor := fun _ cfg =>
      if cfg.Host = "" then Except.error { msg := "host must be a URL or a host:port pair" }
      else Except.ok { id := 1 }
    Do := fun _ _ r =>
      if r.resourceName = some "missing" then failedResult { msg := "not found" }
      else chartResult { Name := r.resourceName.getD "", Namespace := r.nspace.getD "",
                         Spec := "", Status := "deployed" }
    Watch := fun _ _ r =>
      if r.nspace = some "forbidden" then (none, some { msg := "forbidden" })
      else (some { id := 1 }, none) }

/-- The collaborators of `sampleExternals`, except that scheme registration fails. -/
def brokenSchemeExternals : Externals :=
  { sampleExternals with AddToScheme := fun _ => some { msg := "scheme registration failed" } }

/-- An accessor for the namespace "kube-system" on the transport of `sampleExternals`. -/
def sampleAccessor : chartClient := { restClient := { id := 1 }, ns := "kube-system" }

/-- Delete options carrying a grace period and a propagation policy. -/
def sampleDeleteOptions : DeleteOptions :=
  { GracePeriodSeconds := some 30, PreconditionUID := none, PreconditionResourceVersion := none,
    OrphanDependents := none, PropagationPolicy := some "Foreground", DryRun := [] }

/-- The world before any call. -/
def World.empty : World := { calls := [] }

/-! ## Requests built by the accessor -/

/-- C1: for every accessor (so every namespace `c.ns`) and every caller-supplied
list options, whatever their `Watch` field holds, `Watch` hands the transport
exactly one request: a GET on namespace `c.ns` and resource "charts", with no
name, no subresource and no body, whose versioned parameters are the caller's
options with `Watch` set to true and every other field as the caller gave it,
encoded with `scheme.ParameterCodec`. -/
theorem Watch_request_forces_watch (E : Externals) (c : chartClient) (ctx : Context)
    (opts : ListOptions) (w : World) :
    ∃ r : Request, ∃ sent : ListOptions,
      (c.Watch E ctx opts w).world.calls = w.calls ++ [Event.watch ctx r] ∧
      r.client = c.restClient ∧ r.verb = Verb.GET ∧ r.nspace = some c.ns ∧
      r.resource = some "charts" ∧ r.resourceName = none ∧ r.subresource = none ∧
      r.body = none ∧ r.params = some (Params.list sent, Codec.ParameterCodec) ∧
      sent = { opts with Watch := true } ∧ sent.Watch = true ∧
      sent.LabelSelector = opts.LabelSelector ∧ sent.FieldSelector = opts.FieldSelector ∧
      sent.AllowWatchBookmarks = opts.AllowWatchBookmarks ∧
      sent.ResourceVersion = opts.ResourceVersion ∧
      sent.ResourceVersionMatch = opts.ResourceVersionMatch ∧
      sent.TimeoutSeconds = opts.TimeoutSeconds ∧ sent.Limit = opts.Limit ∧
      sent.Continue = opts.Continue :=
  ⟨_, _, rfl, rfl, rfl, rfl, rfl, rfl, rfl, rfl, rfl, rfl, rfl, rfl, rfl, rfl, rfl, rfl, rfl,
    rfl, rfl⟩

/-- C2: for every accessor and every Chart object, `UpdateStatus` hands the
transport exactly one request: a PUT on namespace `c.ns` (the accessor's, also
when the chart's own namespace differs), resource "charts", name `chart.Name`
(the name inside the object; the method takes no other name), subresource
"status", with the chart as body. -/
theorem UpdateStatus_request_addressing (E : Externals) (c : chartClient) (ctx : Context)
    (chart : Chart) (opts : UpdateOptions) (w : World) :
    ∃ r : Request,
      (c.UpdateStatus E ctx chart opts w).world.calls = w.calls ++ [Event.execute ctx r] ∧
      r.client = c.restClient ∧ r.verb = Verb.PUT ∧ r.nspace = some c.ns ∧
      r.resource = some "charts" ∧ r.resourceName = some chart.Name ∧
      r.subresource = some "status" ∧ r.body = some (Body.chart chart) ∧
      r.pathSegments = ["namespaces", c.ns, "charts", chart.Name, "status"] :=
  ⟨_, rfl, rfl, rfl, rfl, rfl, rfl, rfl, rfl, rfl⟩

/-- C3: for every namespace handed to `Charts` and every call argument, each of
the six operations of the returned accessor hands the transport one request of
the documented verb and path: Get is GET namespaces/ns/charts/name, List and
Watch are GET namespaces/ns/charts, Create is POST namespaces/ns/charts,
Delete is DELETE namespaces/ns/charts/name, UpdateStatus is PUT
namespaces/ns/charts/name/status, where name is the chart's own name for
UpdateStatus; the namespace is the one given to `Charts` and the resource is
"charts". -/
theorem Charts_operations_verb_and_path (E : Externals) (cl : ChartV1Beta1Client) (ns : String)
    (ctx : Context) (name : String) (chart : Chart) (lopts : ListOptions) (gopts : GetOptions)
    (dopts : DeleteOptions) (uopts : UpdateOptions) (w : World) :
    (∃ r : Request,
      ((cl.Charts ns).Get E ctx name gopts w).world.calls = w.calls ++ [Event.execute ctx r] ∧
      r.verb = Verb.GET ∧ r.pathSegments = ["namespaces", ns, "charts", name] ∧
      r.nspace = some ns ∧ r.resource = some "charts") ∧
    (∃ r : Request,
      ((cl.Charts ns).List E ctx w).world.calls = w.calls ++ [Event.execute ctx r] ∧
      r.verb = Verb.GET ∧ r.pathSegments = ["namespaces", ns, "charts"] ∧
      r.nspace = some ns ∧ r.resource = some "charts") ∧
    (∃ r : Request,
      ((cl.Charts ns).Watch E ctx lopts w).world.calls = w.calls ++ [Event.watch ctx r] ∧
      r.verb = Verb.GET ∧ r.pathSegments = ["namespaces", ns, "charts"] ∧
      r.nspace = some ns ∧ r.resource = some "charts") ∧
    (∃ r : Request,
      ((cl.Charts ns).Create E ctx chart w).world.calls = w.calls ++ [Event.execute ctx r] ∧
      r.verb = Verb.POST ∧ r.pathSegments = ["namespaces", ns, "charts"] ∧
      r.nspace = some ns ∧ r.resource = some "charts" ∧ r.resourceName = none) ∧
    (∃ r : Request,
      ((cl.Charts ns).Delete E ctx name dopts w).world.calls = w.calls ++ [Event.execute ctx r] ∧
      r.verb = Verb.DELETE ∧ r.pathSegments = ["namespaces", ns, "charts", name] ∧
      r.nspace = some ns ∧ r.resource = some "charts") ∧
    (∃ r : Request,
      ((cl.Charts ns).UpdateStatus E ctx chart uopts w).world.calls =
        w.calls ++ [Event.execute ctx r] ∧
      r.verb = Verb.PUT ∧ r.pathSegments = ["namespaces", ns, "charts", chart.Name, "status"] ∧
      r.nspace = some ns ∧ r.resource = some "charts") :=
  ⟨⟨_, rfl, rfl, rfl, rfl, rfl⟩, ⟨_, rfl, rfl, rfl, rfl, rfl⟩, ⟨_, rfl, rfl, rfl, rfl, rfl⟩,
    ⟨_, rfl, rfl, rfl, rfl, rfl, rfl⟩, ⟨_, rfl, rfl, rfl, rfl, rfl⟩,
    ⟨_, rfl, rfl, rfl, rfl, rfl⟩⟩

/-! ## Errors and results -/

/-- Two logs that extend the same log by one executed request each are equal
only when the two requests are. -/
theorem execute_event_inj {l : List Event} {ctx : Context} {r r2 : Request}
    (h : l ++ [Event.execute ctx r] = l ++ [Event.execute ctx r2]) : r = r2 := by
  have h2 := List.append_cancel_left h
  simpa using h2

/-- Recording an executed request adds exactly that request to the requests
handed to the transport. -/
theorem requests_record_execute (w : World) (ctx : Context) (r : Request) :
    (w.record (Event.execute ctx r)).requests = w.requests ++ [r] := by
  simp [World.record, World.requests, List.filterMap_append, Event.request]

/-- Recording an opened watch adds exactly its request to the requests handed
to the transport. -/
theorem requests_record_watch (w : World) (ctx : Context) (r : Request) :
    (w.record (Event.watch ctx r)).requests = w.requests ++ [r] := by
  simp [World.record, World.requests, List.filterMap_append, Event.request]

/-- C4: for each of the six operations and every behaviour of the transport,
the error the operation returns is the very error the transport reported for
the one request the operation made: what `Result.Into` reports for Get, List,
Create and UpdateStatus, what `Result.Error` reports for Delete, what the
transport's `Watch` reports for Watch.  So the returned error is nil exactly
when the transport reported none, and Delete returns nil on success. -/
theorem operations_return_transport_error (E : Externals) (c : chartClient) (ctx : Context)
    (name : String) (chart : Chart) (lopts : ListOptions) (gopts : GetOptions)
    (dopts : DeleteOptions) (uopts : UpdateOptions) (w : World) :
    (∃ r : Request,
      (c.Get E ctx name gopts w).world.calls = w.calls ++ [Event.execute ctx r] ∧
      (c.Get E ctx name gopts w).ret.2 = ((E.Do w.calls ctx r).IntoChart Chart.zero).2) ∧
    (∃ r : Request,
      (c.List E ctx w).world.calls = w.calls ++ [Event.execute ctx r] ∧
      (c.List E ctx w).ret.2 = ((E.Do w.calls ctx r).IntoChartList ChartList.zero).2) ∧
    (∃ r : Request,
      (c.Watch E ctx lopts w).world.calls = w.calls ++ [Event.watch ctx r] ∧
      (c.Watch E ctx lopts w).ret.2 = (E.Watch w.calls ctx r).2) ∧
    (∃ r : Request,
      (c.Create E ctx chart w).world.calls = w.calls ++ [Event.execute ctx r] ∧
      (c.Create E ctx chart w).ret.2 = ((E.Do w.calls ctx r).IntoChart Chart.zero).2) ∧
    (∃ r : Request,
      (c.Delete E ctx name dopts w).world.calls = w.calls ++ [Event.execute ctx r] ∧
      (c.Delete E ctx name dopts w).ret = (E.Do w.calls ctx r).Error ∧
      ((c.Delete E ctx name dopts w).ret = none ↔ (E.Do w.calls ctx r).Error = none)) ∧
    (∃ r : Request,
      (c.UpdateStatus E ctx chart uopts w).world.calls = w.calls ++ [Event.execute ctx r] ∧
      (c.UpdateStatus E ctx chart uopts w).ret.2 =
        ((E.Do w.calls ctx r).IntoChart Chart.zero).2) :=
  ⟨⟨_, rfl, rfl⟩, ⟨_, rfl, rfl⟩, ⟨_, rfl, rfl⟩, ⟨_, rfl, rfl⟩, ⟨_, rfl, rfl, Iff.rfl⟩,
    ⟨_, rfl, rfl⟩⟩

/-- C9: every call of Get, List, Watch, Create, Delete or UpdateStatus, whatever
the transport answers (success or failure), adds exactly one call to the world,
a request handed to the transport, so the requests made grow by exactly one:
there is no retry and no second request after an error.  The receiver, and with
it the transport handle it holds, is at the return what it was at the call. -/
theorem operations_issue_one_request (E : Externals) (c : chartClient) (ctx : Context)
    (name : String) (chart : Chart) (lopts : ListOptions) (gopts : GetOptions)
    (dopts : DeleteOptions) (uopts : UpdateOptions) (w : World) :
    (∃ r : Request,
      (c.Get E ctx name gopts w).world.calls = w.calls ++ [Event.execute ctx r] ∧
      (c.Get E ctx name gopts w).world.requests = w.requests ++ [r] ∧
      (c.Get E ctx name gopts w).c = c) ∧
    (∃ r : Request,
      (c.List E ctx w).world.calls = w.calls ++ [Event.execute ctx r] ∧
      (c.List E ctx w).world.requests = w.requests ++ [r] ∧
      (c.List E ctx w).c = c) ∧
    (∃ r : Request,
      (c.Watch E ctx lopts w).world.calls = w.calls ++ [Event.watch ctx r] ∧
      (c.Watch E ctx lopts w).world.requests = w.requests ++ [r] ∧
      (c.Watch E ctx lopts w).c = c) ∧
    (∃ r : Request,
      (c.Create E ctx chart w).world.calls = w.calls ++ [Event.execute ctx r] ∧
      (c.Create E ctx chart w).world.requests = w.requests ++ [r] ∧
      (c.Create E ctx chart w).c = c) ∧
    (∃ r : Request,
      (c.Delete E ctx name dopts w).world.calls = w.calls ++ [Event.execute ctx r] ∧
      (c.Delete E ctx name dopts w).world.requests = w.requests ++ [r] ∧
      (c.Delete E ctx name dopts w).c = c) ∧
    (∃ r : Request,
      (c.UpdateStatus E ctx chart uopts w).world.calls = w.calls ++ [Event.execute ctx r] ∧
      (c.UpdateStatus E ctx chart uopts w).world.requests = w.requests ++ [r] ∧
      (c.UpdateStatus E ctx chart uopts w).c = c) :=
  ⟨⟨_, rfl, requests_record_execute w ctx _, rfl⟩,
    ⟨_, rfl, requests_record_execute w ctx _, rfl⟩,
    ⟨_, rfl, requests_record_watch w ctx _, rfl⟩,
    ⟨_, rfl, requests_record_execute w ctx _, rfl⟩,
    ⟨_, rfl, requests_record_execute w ctx _, rfl⟩,
    ⟨_, rfl, requests_record_execute w ctx _, rfl⟩⟩

/-! ## Construction of the client -/

/-- When scheme registration succeeds `New` makes two calls: the registration,
then the transport constructor on `crdConfig`. -/
theorem New_calls_of_registered (E : Externals) (cfg : Config) (w : World)
    (hreg : E.AddToScheme w.calls = none) :
    (New E cfg w).world.calls =
      w.calls ++ [Event.addToScheme, Event.restClientFor (crdConfig E cfg)] := by
  unfold New
  rw [hreg]
  simp only []
  split <;> simp [World.record, crdConfig]

/-- Whatever happens, `New` only appends to the calls, starting with the scheme
registration. -/
theorem New_calls_extend (E : Externals) (cfg : Config) (w : World) :
    ∃ rest : List Event, (New E cfg w).world.calls = w.calls ++ Event.addToScheme :: rest := by
  cases hreg : E.AddToScheme w.calls with
  | some e => exact ⟨[], by unfold New; rw [hreg]; rfl⟩
  | none => exact ⟨[Event.restClientFor (crdConfig E cfg)], New_calls_of_registered E cfg w hreg⟩

/-- C6: `New` returns an error if and only if scheme registration fails or the
transport constructor fails on the derived configuration.  There are three
outcomes and no other: registration fails, the client is nil, the error is the
registration error and the transport constructor was not called; registration
succeeds and the constructor fails, the client is nil and the error is the
constructor's; both succeed, the client is non-nil, holds the constructed
transport, and the error is nil. -/
theorem New_error_iff_step_fails (E : Externals) (cfg : Config) (w : World) :
    ((New E cfg w).err ≠ none ↔
      (E.AddToScheme w.calls ≠ none ∨
        ∃ e : Error, E.RESTClientFor (w.calls ++ [Event.addToScheme]) (crdConfig E cfg) =
          Except.error e)) ∧
    ((∃ e : Error, E.AddToScheme w.calls = some e ∧
        (New E cfg w).client = none ∧ (New E cfg w).err = some e ∧
        (New E cfg w).world.calls = w.calls ++ [Event.addToScheme]) ∨
     (∃ e : Error, E.AddToScheme w.calls = none ∧
        E.RESTClientFor (w.calls ++ [Event.addToScheme]) (crdConfig E cfg) = Except.error e ∧
        (New E cfg w).client = none ∧ (New E cfg w).err = some e ∧
        (New E cfg w).world.calls =
          w.calls ++ [Event.addToScheme, Event.restClientFor (crdConfig E cfg)]) ∨
     (∃ rc : RestInterface, E.AddToScheme w.calls = none ∧
        E.RESTClientFor (w.calls ++ [Event.addToScheme]) (crdConfig E cfg) = Except.ok rc ∧
        (New E cfg w).client = some { restClient := rc } ∧ (New E cfg w).err = none ∧
        (New E cfg w).world.calls =
          w.calls ++ [Event.addToScheme, Event.restClientFor (crdConfig E cfg)])) := by
  cases hreg : E.AddToScheme w.calls with
  | some e =>
    have hN : New E cfg w =
        { client := none, err := some e, config := cfg, world := w.record Event.addToScheme } := by
      unfold New; rw [hreg]
    refine ⟨?_, Or.inl ⟨e, rfl, ?_, ?_, ?_⟩⟩ <;> simp [hN, World.record]
  | none =>
    have hcalls := New_calls_of_registered E cfg w hreg
    cases hrc : E.RESTClientFor (w.calls ++ [Event.addToScheme]) (crdConfig E cfg) with
    | error e =>
      have hN : (New E cfg w).client = none ∧ (New E cfg w).err = some e := by
        unfold New; rw [hreg]
        simp only [World.record]
        have hrc2 := hrc
        unfold crdConfig at hrc2
        rw [hrc2]
        exact ⟨rfl, rfl⟩
      refine ⟨?_, Or.inr (Or.inl ⟨e, rfl, rfl, hN.1, hN.2, hcalls⟩)⟩
      simp [hN.2]
    | ok rc =>
      have hN : (New E cfg w).client = some { restClient := rc } ∧ (New E cfg w).err = none := by
        unfold New; rw [hreg]
        simp only [World.record]
        have hrc2 := hrc
        unfold crdConfig at hrc2
        rw [hrc2]
        exact ⟨rfl, rfl⟩
      refine ⟨?_, Or.inr (Or.inr ⟨rc, rfl, rfl, hN.1, hN.2, hcalls⟩)⟩
      simp [hN.2]

/-- C7: when scheme registration succeeds, the configuration `New` hands to the
transport constructor is the caller's with exactly four fields overwritten,
whatever the caller had there: `GroupVersion` is the Chart group/version,
`APIPath` is "/apis", `NegotiatedSerializer` is the codec factory without
conversion, `UserAgent` is the default user agent.  Every other field is the
caller's, and the caller's configuration is at the return what it was at the
call. -/
theorem New_derived_configuration (E : Externals) (cfg : Config) (w : World)
    (hreg : E.AddToScheme w.calls = none) :
    ∃ crd : Config,
      (New E cfg w).world.calls = w.calls ++ [Event.addToScheme, Event.restClientFor crd] ∧
      crd.GroupVersion = some E.GroupVersion ∧ crd.APIPath = "/apis" ∧
      crd.NegotiatedSerializer = some E.CodecsWithoutConversion ∧
      crd.UserAgent = E.DefaultKubernetesUserAgent ∧
      crd.Host = cfg.Host ∧ crd.AcceptContentTypes = cfg.AcceptContentTypes ∧
      crd.ContentType = cfg.ContentType ∧ crd.Username = cfg.Username ∧
      crd.Password = cfg.Password ∧ crd.BearerToken = cfg.BearerToken ∧
      crd.BearerTokenFile = cfg.BearerTokenFile ∧ crd.Insecure = cfg.Insecure ∧
      crd.ServerName = cfg.ServerName ∧ crd.CertFile = cfg.CertFile ∧
      crd.KeyFile = cfg.KeyFile ∧ crd.CAFile = cfg.CAFile ∧ crd.Burst = cfg.Burst ∧
      crd.Timeout = cfg.Timeout ∧
      (New E cfg w).config = cfg := by
  refine ⟨crdConfig E cfg, New_calls_of_registered E cfg w hreg, rfl, rfl, rfl, rfl, rfl, rfl,
    rfl, rfl, rfl, rfl, rfl, rfl, rfl, rfl, rfl, rfl, rfl, rfl, ?_⟩
  unfold New
  rw [hreg]
  simp only []
  split <;> rfl

/-- Witness of C7: on the sample collaborators scheme registration succeeds, and
the configuration handed to the transport constructor is the sample one with
the four fields overwritten. -/
theorem New_derived_configuration_witness :
    sampleExternals.AddToScheme World.empty.calls = none ∧
    ∃ crd : Config,
      (New sampleExternals sampleConfig World.empty).world.calls =
        World.empty.calls ++ [Event.addToScheme, Event.restClientFor crd] ∧
      crd.GroupVersion = some sampleExternals.GroupVersion ∧ crd.APIPath = "/apis" ∧
      crd.NegotiatedSerializer = some sampleExternals.CodecsWithoutConversion ∧
      crd.UserAgent = sampleExternals.DefaultKubernetesUserAgent ∧
      crd.Host = sampleConfig.Host ∧ crd.AcceptContentTypes = sampleConfig.AcceptContentTypes ∧
      crd.ContentType = sampleConfig.ContentType ∧ crd.Username = sampleConfig.Username ∧
      crd.Password = sampleConfig.Password ∧ crd.BearerToken = sampleConfig.BearerToken ∧
      crd.BearerTokenFile = sampleConfig.BearerTokenFile ∧
      crd.Insecure = sampleConfig.Insecure ∧
      crd.ServerName = sampleConfig.ServerName ∧ crd.CertFile = sampleConfig.CertFile ∧
      crd.KeyFile = sampleConfig.KeyFile ∧ crd.CAFile = sampleConfig.CAFile ∧
      crd.Burst = sampleConfig.Burst ∧ crd.Timeout = sampleConfig.Timeout ∧
      (New sampleExternals sampleConfig World.empty).config = sampleConfig :=
  ⟨rfl, New_derived_configuration sampleExternals sampleConfig World.empty rfl⟩

/-- C8: `NewForConfig` first loads the configuration from the given path with
an empty master URL.  If loading fails, the client is nil, the error is the
load error, and nothing else was called (no scheme registration).  If loading
yields a configuration, the client, the error and the world are those of `New`
on that configuration. -/
theorem NewForConfig_loads_then_delegates (E : Externals) (p : String) (w : World) :
    (∃ e : Error, E.BuildConfigFromFlags w.calls "" p = Except.error e ∧
      (NewForConfig E p w).client = none ∧ (NewForConfig E p w).err = some e ∧
      (NewForConfig E p w).world.calls = w.calls ++ [Event.buildConfigFromFlags "" p]) ∨
    (∃ cfg : Config, E.BuildConfigFromFlags w.calls "" p = Except.ok cfg ∧
      (NewForConfig E p w).client =
        (New E cfg (w.record (Event.buildConfigFromFlags "" p))).client ∧
      (NewForConfig E p w).err = (New E cfg (w.record (Event.buildConfigFromFlags "" p))).err ∧
      (NewForConfig E p w).world =
        (New E cfg (w.record (Event.buildConfigFromFlags "" p))).world ∧
      ∃ rest : List Event, (NewForConfig E p w).world.calls =
        w.calls ++ Event.buildConfigFromFlags "" p :: Event.addToScheme :: rest) := by
  cases hload : E.BuildConfigFromFlags w.calls "" p with
  | error e =>
    refine Or.inl ⟨e, rfl, ?_, ?_, ?_⟩ <;> (unfold NewForConfig; rw [hload]; try rfl)
  | ok cfg =>
    have hN : NewForConfig E p w =
        { client := (New E cfg (w.record (Event.buildConfigFromFlags "" p))).client,
          err := (New E cfg (w.record (Event.buildConfigFromFlags "" p))).err,
          world := (New E cfg (w.record (Event.buildConfigFromFlags "" p))).world } := by
      unfold NewForConfig; rw [hload]
    obtain ⟨rest, hrest⟩ := New_calls_extend E cfg (w.record (Event.buildConfigFromFlags "" p))
    refine Or.inr ⟨cfg, rfl, by rw [hN], by rw [hN], by rw [hN], rest, ?_⟩
    rw [hN]
    simpa [World.record] using hrest

/-- On an error `New` returns no client: one of the two results is always nil. -/
theorem New_client_none_or_err_none (E : Externals) (cfg : Config) (w : World) :
    (New E cfg w).client = none ∨ (New E cfg w).err = none := by
  unfold New
  split
  · exact Or.inl rfl
  · simp only []
    split
    · exact Or.inl rfl
    · exact Or.inr rfl

/-- On an error `NewForConfig` returns no client: one of the two results is
always nil. -/
theorem NewForConfig_client_none_or_err_none (E : Externals) (p : String) (w : World) :
    (NewForConfig E p w).client = none ∨ (NewForConfig E p w).err = none := by
  unfold NewForConfig
  split
  · exact Or.inl rfl
  · exact New_client_none_or_err_none E _ _

/-- C10: for Get, List, Create and UpdateStatus the returned pointer is non-nil
for every behaviour of the transport, error or not: it points to whatever
`Result.Into` left in a zero-valued Chart (ChartList for List).  So when the
transport reports an error without writing into the target, the operation
returns the zero-valued object together with that error.  `New` and
`NewForConfig`, unlike them, return a nil client whenever they return an error. -/
theorem results_non_nil_on_every_outcome (E : Externals) (c : chartClient) (ctx : Context)
    (name : String) (chart : Chart) (gopts : GetOptions) (uopts : UpdateOptions) (cfg : Config)
    (p : String) (w : World) :
    ((∃ r : Request,
        (c.Get E ctx name gopts w).world.calls = w.calls ++ [Event.execute ctx r] ∧
        (c.Get E ctx name gopts w).ret.1 = some ((E.Do w.calls ctx r).IntoChart Chart.zero).1 ∧
        (c.Get E ctx name gopts w).ret.1 ≠ none) ∧
      (∃ r : Request,
        (c.List E ctx w).world.calls = w.calls ++ [Event.execute ctx r] ∧
        (c.List E ctx w).ret.1 =
          some ((E.Do w.calls ctx r).IntoChartList ChartList.zero).1 ∧
        (c.List E ctx w).ret.1 ≠ none) ∧
      (∃ r : Request,
        (c.Create E ctx chart w).world.calls = w.calls ++ [Event.execute ctx r] ∧
        (c.Create E ctx chart w).ret.1 = some ((E.Do w.calls ctx r).IntoChart Chart.zero).1 ∧
        (c.Create E ctx chart w).ret.1 ≠ none) ∧
      (∃ r : Request,
        (c.UpdateStatus E ctx chart uopts w).world.calls = w.calls ++ [Event.execute ctx r] ∧
        (c.UpdateStatus E ctx chart uopts w).ret.1 =
          some ((E.Do w.calls ctx r).IntoChart Chart.zero).1 ∧
        (c.UpdateStatus E ctx chart uopts w).ret.1 ≠ none)) ∧
    ((∀ (r : Request) (e : Error),
        (c.Get E ctx name gopts w).world.calls = w.calls ++ [Event.execute ctx r] →
        (E.Do w.calls ctx r).IntoChart Chart.zero = (Chart.zero, some e) →
        (c.Get E ctx name gopts w).ret = (some Chart.zero, some e)) ∧
      (∀ (r : Request) (e : Error),
        (c.List E ctx w).world.calls = w.calls ++ [Event.execute ctx r] →
        (E.Do w.calls ctx r).IntoChartList ChartList.zero = (ChartList.zero, some e) →
        (c.List E ctx w).ret = (some ChartList.zero, some e)) ∧
      (∀ (r : Request) (e : Error),
        (c.Create E ctx chart w).world.calls = w.calls ++ [Event.execute ctx r] →
        (E.Do w.calls ctx r).IntoChart Chart.zero = (Chart.zero, some e) →
        (c.Create E ctx chart w).ret = (some Chart.zero, some e)) ∧
      (∀ (r : Request) (e : Error),
        (c.UpdateStatus E ctx chart uopts w).world.calls = w.calls ++ [Event.execute ctx r] →
        (E.Do w.calls ctx r).IntoChart Chart.zero = (Chart.zero, some e) →
        (c.UpdateStatus E ctx chart uopts w).ret = (some Chart.zero, some e))) ∧
    (((New E cfg w).err ≠ none → (New E cfg w).client = none) ∧
      ((NewForConfig E p w).err ≠ none → (NewForConfig E p w).client = none)) := by
  refine ⟨⟨⟨_, rfl, rfl, by simp [chartClient.Get]⟩, ⟨_, rfl, rfl, by simp [chartClient.List]⟩,
    ⟨_, rfl, rfl, by simp [chartClient.Create]⟩,
    ⟨_, rfl, rfl, by simp [chartClient.UpdateStatus]⟩⟩, ⟨?_, ?_, ?_, ?_⟩, ?_, ?_⟩
  · intro r e hc hi
    have hr : _ = r := execute_event_inj hc
    subst hr
    show (some ((E.Do w.calls ctx _).IntoChart Chart.zero).1,
      ((E.Do w.calls ctx _).IntoChart Chart.zero).2) = _
    rw [hi]
  · intro r e hc hi
    have hr : _ = r := execute_event_inj hc
    subst hr
    show (some ((E.Do w.calls ctx _).IntoChartList ChartList.zero).1,
      ((E.Do w.calls ctx _).IntoChartList ChartList.zero).2) = _
    rw [hi]
  · intro r e hc hi
    have hr : _ = r := execute_event_inj hc
    subst hr
    show (some ((E.Do w.calls ctx _).IntoChart Chart.zero).1,
      ((E.Do w.calls ctx _).IntoChart Chart.zero).2) = _
    rw [hi]
  · intro r e hc hi
    have hr : _ = r := execute_event_inj hc
    subst hr
    show (some ((E.Do w.calls ctx _).IntoChart Chart.zero).1,
      ((E.Do w.calls ctx _).IntoChart Chart.zero).2) = _
    rw [hi]
  · intro h
    exact (New_client_none_or_err_none E cfg w).resolve_right h
  · intro h
    exact (NewForConfig_client_none_or_err_none E p w).resolve_right h

/-- Witness of C10: the sample transport knows no chart "missing", reports "not
found" without writing into the target, and Get returns a pointer to the
zero-valued Chart with that error; when scheme registration fails `New`
returns an error and a nil client. -/
theorem results_non_nil_on_every_outcome_witness :
    (sampleAccessor.Get sampleExternals { id := 0 } "missing" { ResourceVersion := "" }
      World.empty).ret = (some Chart.zero, some { msg := "not found" }) ∧
    (New brokenSchemeExternals sampleConfig World.empty).err ≠ none ∧
    (New brokenSchemeExternals sampleConfig World.empty).client = none :=
  ⟨(results_non_nil_on_every_outcome sampleExternals sampleAccessor { id := 0 } "missing"
      Chart.zero { ResourceVersion := "" } { DryRun := [], FieldManager := "", FieldValidation := "" }
      sampleConfig "/nowhere" World.empty).2.1.1 _ _ rfl rfl,
    by decide,
    (results_non_nil_on_every_outcome brokenSchemeExternals sampleAccessor { id := 0 } "missing"
      Chart.zero { ResourceVersion := "" } { DryRun := [], FieldManager := "", FieldValidation := "" }
      sampleConfig "/nowhere" World.empty).2.2.1 (by decide)⟩

/-! ## Where the caller's options travel -/

/-- C5, as stated, fails on the code: on the sample accessor the request that
Delete hands to the transport does not carry the caller's delete options as
versioned parameters (it carries no parameters), and the request that List
hands to the transport carries no list options as versioned parameters. -/
theorem Delete_and_List_options_not_in_params :
    (¬ ∃ r : Request,
      (sampleAccessor.Delete sampleExternals { id := 0 } "demo" sampleDeleteOptions
        World.empty).world.calls = World.empty.calls ++ [Event.execute { id := 0 } r] ∧
      r.params = some (Params.delete sampleDeleteOptions, Codec.ParameterCodec)) ∧
    (¬ ∃ r : Request, ∃ o : ListOptions,
      (sampleAccessor.List sampleExternals { id := 0 } World.empty).world.calls =
        World.empty.calls ++ [Event.execute { id := 0 } r] ∧
      r.params = some (Params.list o, Codec.ParameterCodec)) := by
  constructor
  · rintro ⟨r, hc, hp⟩
    have hr : _ = r := execute_event_inj hc
    subst hr
    exact absurd hp (by decide)
  · rintro ⟨r, o, hc, hp⟩
    have hr : _ = r := execute_event_inj hc
    subst hr
    cases hp

/-- C5, amended: Get and UpdateStatus hand the caller's options to the request
as versioned parameters with `scheme.ParameterCodec`; Delete hands its delete
options to the request as the body and sets no versioned parameters; List takes
no options and its request has no versioned parameters and no body. -/
theorem options_travel_as_params_or_body (E : Externals) (c : chartClient) (ctx : Context)
    (name : String) (chart : Chart) (gopts : GetOptions) (dopts : DeleteOptions)
    (uopts : UpdateOptions) (w : World) :
    (∃ r : Request,
      (c.Get E ctx name gopts w).world.calls = w.calls ++ [Event.execute ctx r] ∧
      r.params = some (Params.get gopts, Codec.ParameterCodec) ∧ r.body = none) ∧
    (∃ r : Request,
      (c.UpdateStatus E ctx chart uopts w).world.calls = w.calls ++ [Event.execute ctx r] ∧
      r.params = some (Params.update uopts, Codec.ParameterCodec) ∧
      r.body = some (Body.chart chart)) ∧
    (∃ r : Request,
      (c.Delete E ctx name dopts w).world.calls = w.calls ++ [Event.execute ctx r] ∧
      r.params = none ∧ r.body = some (Body.deleteOptions dopts)) ∧
    (∃ r : Request,
      (c.List E ctx w).world.calls = w.calls ++ [Event.execute ctx r] ∧
      r.params = none ∧ r.body = none) :=
  ⟨⟨_, rfl, rfl, rfl⟩, ⟨_, rfl, rfl, rfl⟩, ⟨_, rfl, rfl, rfl⟩, ⟨_, rfl, rfl, rfl⟩⟩

/-! ## The adapter on explicit inputs -/

/-- On the sample accessor, a caller who asks for `Watch: false` still sends
`Watch: true`, and only that field differs from what the caller gave. -/
theorem Watch_sample_request :
    (sampleAccessor.Watch sampleExternals { id := 0 }
      { LabelSelector := "app=demo", FieldSelector := "", Watch := false,
        AllowWatchBookmarks := false, ResourceVersion := "42", ResourceVersionMatch := "",
        TimeoutSeconds := some 5, Limit := 0, Continue := "" } World.empty).world.requests =
      [{ client := { id := 1 }, verb := Verb.GET, nspace := some "kube-system",
         resource := some "charts", resourceName := none, subresource := none,
         params := some (Params.list
           { LabelSelector := "app=demo", FieldSelector := "", Watch := true,
             AllowWatchBookmarks := false, ResourceVersion := "42", ResourceVersionMatch := "",
             TimeoutSeconds := some 5, Limit := 0, Continue := "" }, Codec.ParameterCodec),
         body := none }] := by
  decide

/-- On the sample accessor, Delete sends its options as the body of a DELETE
on namespaces/kube-system/charts/demo, without versioned parameters. -/
theorem Delete_sample_request :
    (sampleAccessor.Delete sampleExternals { id := 0 } "demo" sampleDeleteOptions
      World.empty).world.requests =
      [{ client := { id := 1 }, verb := Verb.DELETE, nspace := some "kube-system",
         resource := some "charts", resourceName := some "demo", subresource := none,
         params := none, body := some (Body.deleteOptions sampleDeleteOptions) }] := by
  decide

/-- When scheme registration fails, `New` makes that one call and no other, and
returns the registration error without a client. -/
theorem New_sample_registration_failure :
    (New brokenSchemeExternals sampleConfig World.empty).world.calls = [Event.addToScheme] ∧
    (New brokenSchemeExternals sampleConfig World.empty).err =
      some { msg := "scheme registration failed" } ∧
    (New brokenSchemeExternals sampleConfig World.empty).client = none := by
  decide

/-- Loading from "/nowhere" fails on the sample collaborators: `NewForConfig`
makes the load call only. -/
theorem NewForConfig_sample_load_failure :
    (NewForConfig sampleExternals "/nowhere" World.empty).world.calls =
      [Event.buildConfigFromFlags "" "/nowhere"] ∧
    (NewForConfig sampleExternals "/nowhere" World.empty).err = some { msg := "no such file" } ∧
    (NewForConfig sampleExternals "/nowhere" World.empty).client = none := by
  decide

/-- Loading from any other path succeeds on the sample collaborators, and
`NewForConfig` goes on to register the scheme and construct the transport. -/
theorem NewForConfig_sample_success :
    (NewForConfig sampleExternals "/etc/k0s/admin.conf" World.empty).world.calls =
      [Event.buildConfigFromFlags "" "/etc/k0s/admin.conf", Event.addToScheme,
        Event.restClientFor (crdConfig sampleExternals sampleConfig)] ∧
    (NewForConfig sampleExternals "/etc/k0s/admin.conf" World.empty).err = none ∧
    (NewForConfig sampleExternals "/etc/k0s/admin.conf" World.empty).client =
      some { restClient := { id := 1 } } := by
  decide

end clientset
